import Mathlib

set_option maxHeartbeats 1000000

/-! Shallow embedding of src/netviz/one_page_report.cpp (tcpflow): the report
aggregate, its per-packet ingestion pipeline, the byte-size formatter and the
render-pass layout arithmetic, together with theorems checking the
specification claims. Machine doubles used only for layout arithmetic are
modelled as rationals; external collaborators (protocol decoders, drawing
surface, sub-statistic renderers) are modelled as explicit parameters. -/

/-- Model of struct timeval: whole-second and sub-second (microsecond)
components. -/
structure timeval where
  tv_sec : Int
  tv_usec : Int
  deriving DecidableEq, Repr

/-- Model of struct ip4_dgram as used by ingest_packet: source and destination
addresses (the 4 bytes of the in_addr field each) plus the payload byte span. -/
structure ip4_dgram where
  ip_src : { l : List Nat // l.length = 4 }
  ip_dst : { l : List Nat // l.length = 4 }
  payload : List Nat
  deriving DecidableEq

/-- Model of struct ip6_dgram as used by ingest_packet: source and destination
addresses (the 16 bytes of the in6_addr field each) plus the payload byte
span. -/
structure ip6_dgram where
  ip6_src : { l : List Nat // l.length = 16 }
  ip6_dst : { l : List Nat // l.length = 16 }
  payload : List Nat
  deriving DecidableEq

/-- Model of struct tcp_seg: an external structure whose contents this file
never inspects, modelled as its raw bytes. -/
structure tcp_seg where
  raw : List Nat
  deriving DecidableEq

/-- Model of packet_info as read by ingest_packet: timestamp, captured length
(caplen of the pcap header), link-layer tag (ether_type) and the raw
network-layer bytes. -/
structure packet_info where
  ts : timeval
  caplen : Nat
  ether_type : Nat
  ip_data : List Nat
  deriving DecidableEq

/-- External protocol decoders (tcpip::ip4_from_bytes, tcpip::ip6_from_bytes,
tcpip::tcp_from_bytes). The C functions fill an output structure and return a
success flag; they are modelled as pure functions returning an Option. -/
structure decoders where
  ip4_from_bytes : List Nat → Option ip4_dgram
  ip6_from_bytes : List Nat → Option ip6_dgram
  tcp_from_bytes : List Nat → Option tcp_seg

/-- Model of transport_counts[k]++ (std::map operator[] default-constructs a
missing value to 0, then the increment). The std::map＜uint32_t, uint64_t＞
is modelled as an association list: the C++ map orders its keys, but only the
key/value content is observable here, so the list keeps keys in
first-insertion order. -/
def mapIncr : List (Nat × Nat) → Nat → List (Nat × Nat)
  | [], k => [(k, 1)]
  | (a, v) :: rest, k =>
    if a = k then (a, v + 1) :: rest else (a, v) :: mapIncr rest k

/-- Model of an rvalue use of std::map operator[]: a missing key is inserted
with value 0, the stored value is returned unchanged otherwise. -/
def mapProbe : List (Nat × Nat) → Nat → List (Nat × Nat)
  | [], k => [(k, 0)]
  | (a, v) :: rest, k =>
    if a = k then (a, v) :: rest else (a, v) :: mapProbe rest k

/-- Value stored under a key, 0 when the key is absent (the value that
std::map operator[] would yield). -/
def countOf : List (Nat × Nat) → Nat → Nat
  | [], _ => 0
  | (a, v) :: rest, k => if a = k then v else countOf rest k

/-- Sum of all stored values of the map. -/
def sumValues (m : List (Nat × Nat)) : Nat := (m.map Prod.snd).sum

/-- Model of the one_page_report class state: counters, time range,
transport tally, the two address trees (each modelled as the sequence of byte
strings handed to iptree::add), the data handed to each owned sub-statistic,
and the configuration fields set by the constructor. The address histograms
hold no ingestion-time data (they read the trees at render time), so no field
models them. The uint64_t counters are modelled as Nat: their wrap at 2 ^ 64
is unreachable for any capture a pcap header can describe, so overflow never
matters for the claims below. -/
structure one_page_report where
  source_identifier : String
  filename : String
  bounds_x : Rat
  bounds_y : Rat
  bounds_width : Rat
  bounds_height : Rat
  header_font_size : Rat
  top_list_font_size : Rat
  histogram_show_top_n_text : Nat
  packet_count : Nat
  byte_count : Nat
  earliest : timeval
  latest : timeval
  transport_counts : List (Nat × Nat)
  bandwidth_histogram : List (packet_info × Option tcp_seg)
  src_port_histogram : List tcp_seg
  dst_port_histogram : List tcp_seg
  pfall : List packet_info
  src_tree : List (List Nat)
  dst_tree : List (List Nat)
  deriving DecidableEq

namespace one_page_report

/-- Ratio constant page_margin_factor = 0.05. -/
def page_margin_factor : Rat := 5 / 100

/-- Ratio constant line_space_factor = 0.25. -/
def line_space_factor : Rat := 1 / 4

/-- Ratio constant histogram_pad_factor_y = 1.0. -/
def histogram_pad_factor_y : Rat := 1

/-- Ratio constant address_histogram_width_divisor = 2.5. -/
def address_histogram_width_divisor : Rat := 5 / 2

/-- Size constant bandwidth_histogram_height = 100.0. -/
def bandwidth_histogram_height : Rat := 100

/-- Size constant address_histogram_height = 100.0. -/
def address_histogram_height : Rat := 100

/-- Model of the string constant title_version = PACKAGE " " VERSION; the two
macros come from the build configuration, their value is immaterial here. -/
def title_version : String := "tcpflow x.y.z"

/-- Model of one_page_report::build_size_suffixes. -/
def build_size_suffixes : List String :=
  ["B", "KB", "MB", "GB", "TB", "PB", "EB"]

/-- Static member size_suffixes, built once from build_size_suffixes. -/
def size_suffixes : List String := build_size_suffixes

/-- Model of the default constructor one_page_report::one_page_report: all
counters zero, both time bounds zeroed, every container empty, configuration
fields set to the documented defaults (611x792 page, fonts 8.0, top 3 rows). -/
def init : one_page_report :=
  { source_identifier := ""
    filename := "report.pdf"
    bounds_x := 0
    bounds_y := 0
    bounds_width := 611
    bounds_height := 792
    header_font_size := 8
    top_list_font_size := 8
    histogram_show_top_n_text := 3
    packet_count := 0
    byte_count := 0
    earliest := ⟨0, 0⟩
    latest := ⟨0, 0⟩
    transport_counts := []
    bandwidth_histogram := []
    src_port_histogram := []
    dst_port_histogram := []
    pfall := []
    src_tree := []
    dst_tree := [] }

end one_page_report

/-- Result of the decode block of ingest_packet (source lines 78 to 109): the
IPv4 try comes first, the IPv6 try runs only when it failed, and the TCP try
runs on the decoded payload (an empty span when neither IP variant decoded,
mirroring the null pointer with length 0 handed to tcp_from_bytes). -/
structure decode_result where
  ip4 : Option ip4_dgram
  ip6 : Option ip6_dgram
  tcp : Option tcp_seg
  deriving DecidableEq

/-- Decode block of ingest_packet (source lines 78 to 109). -/
def classify (dec : decoders) (ip_data : List Nat) : decode_result :=
  match dec.ip4_from_bytes ip_data with
  | some d4 => { ip4 := some d4, ip6 := none, tcp := dec.tcp_from_bytes d4.payload }
  | none =>
    match dec.ip6_from_bytes ip_data with
    | some d6 => { ip4 := none, ip6 := some d6, tcp := dec.tcp_from_bytes d6.payload }
    | none => { ip4 := none, ip6 := none, tcp := dec.tcp_from_bytes [] }

/-- Model of one_page_report::ingest_packet (source lines 65 to 129), step by
step in source order: conditional earliest update, the conjunctive latest
update, the three counter updates, the decode block, the address-tree routing
(checking the IPv6 flag first, then the IPv4 flag), the unconditional
bandwidth-histogram feed with the optional TCP segment, the port-histogram
feeds guarded by the TCP flag, and the unconditional packet-waterfall feed. -/
def one_page_report.ingest_packet (dec : decoders) (r : one_page_report)
    (pi : packet_info) : one_page_report :=
  let r := if r.earliest.tv_sec = 0 then { r with earliest := pi.ts } else r
  let r := if r.latest.tv_sec < pi.ts.tv_sec ∧ r.latest.tv_usec < pi.ts.tv_usec
    then { r with latest := pi.ts } else r
  let r := { r with
    packet_count := r.packet_count + 1
    byte_count := r.byte_count + pi.caplen
    transport_counts := mapIncr r.transport_counts pi.ether_type }
  let c := classify dec pi.ip_data
  let r := match c.ip6 with
    | some d6 =>
      { r with src_tree := r.src_tree ++ [d6.ip6_src.val]
               dst_tree := r.dst_tree ++ [d6.ip6_dst.val] }
    | none => match c.ip4 with
      | some d4 =>
        { r with src_tree := r.src_tree ++ [d4.ip_src.val]
                 dst_tree := r.dst_tree ++ [d4.ip_dst.val] }
      | none => r
  let r := { r with bandwidth_histogram := r.bandwidth_histogram ++ [(pi, c.tcp)] }
  let r := match c.tcp with
    | some seg =>
      { r with src_port_histogram := r.src_port_histogram ++ [seg]
               dst_port_histogram := r.dst_port_histogram ++ [seg] }
    | none => r
  { r with pfall := r.pfall ++ [pi] }

/-- Ingestion of a whole packet sequence in order, starting from a given
aggregate state (the external capture loop calls ingest_packet once per
packet, strictly sequentially). -/
def ingest_list (dec : decoders) (r : one_page_report)
    (pis : List packet_info) : one_page_report :=
  pis.foldl (one_page_report.ingest_packet dec) r

/-- Decoder assembly that fails on every input; used to build concrete
example runs of the ingestion pipeline. -/
def noDecoders : decoders :=
  { ip4_from_bytes := fun _ => none
    ip6_from_bytes := fun _ => none
    tcp_from_bytes := fun _ => none }

/-- Helper: one ingestion call leaves every field except the routed ones in a
known state. Fields are listed one conjunct each so later proofs can project. -/
theorem ingest_packet_fields (dec : decoders) (r : one_page_report)
    (pi : packet_info) :
    (r.ingest_packet dec pi).packet_count = r.packet_count + 1 ∧
    (r.ingest_packet dec pi).byte_count = r.byte_count + pi.caplen ∧
    (r.ingest_packet dec pi).transport_counts
      = mapIncr r.transport_counts pi.ether_type ∧
    (r.ingest_packet dec pi).latest
      = (if r.latest.tv_sec < pi.ts.tv_sec ∧ r.latest.tv_usec < pi.ts.tv_usec
          then pi.ts else r.latest) ∧
    (r.ingest_packet dec pi).earliest
      = (if r.earliest.tv_sec = 0 then pi.ts else r.earliest) := by
  simp only [one_page_report.ingest_packet]
  repeat' split
  all_goals simp_all

/-- Helper: incrementing one key raises the value sum of the map by one. -/
theorem sumValues_mapIncr (m : List (Nat × Nat)) (k : Nat) :
    sumValues (mapIncr m k) = sumValues m + 1 := by
  induction m with
  | nil => simp [mapIncr, sumValues]
  | cons p rest ih =>
    obtain ⟨a, v⟩ := p
    by_cases hak : a = k <;> simp [mapIncr, sumValues, hak] <;>
      simp [sumValues] at ih <;> omega

/-- Helper: incrementing one key raises exactly that key of the map by one
and leaves every other key unchanged. -/
theorem countOf_mapIncr (m : List (Nat × Nat)) (k j : Nat) :
    countOf (mapIncr m k) j = countOf m j + (if j = k then 1 else 0) := by
  induction m with
  | nil =>
    by_cases hjk : j = k
    · subst hjk; simp [mapIncr, countOf]
    · simp [mapIncr, countOf, hjk, Ne.symm hjk]
  | cons p rest ih =>
    obtain ⟨a, v⟩ := p
    simp only [mapIncr]
    by_cases hak : a = k
    · subst hak
      simp only [if_pos rfl, countOf]
      by_cases haj : a = j
      · subst haj; simp
      · simp [haj, Ne.symm haj]
    · simp only [if_neg hak, countOf]
      by_cases haj : a = j
      · subst haj; simp [hak]
      · simp [haj, ih]

/-- Helper: counters accumulated over a packet sequence, relative to an
arbitrary starting aggregate. -/
theorem ingest_list_counts (dec : decoders) (pis : List packet_info)
    (r : one_page_report) :
    (ingest_list dec r pis).packet_count = r.packet_count + pis.length ∧
    (ingest_list dec r pis).byte_count
      = r.byte_count + (pis.map packet_info.caplen).sum ∧
    sumValues (ingest_list dec r pis).transport_counts
      = sumValues r.transport_counts + pis.length := by
  induction pis generalizing r with
  | nil => simp [ingest_list]
  | cons pi rest ih =>
    have h := ingest_packet_fields dec r pi
    have h2 := ih (r.ingest_packet dec pi)
    simp only [ingest_list, List.foldl_cons] at h2 ⊢
    refine ⟨?_, ?_, ?_⟩
    · rw [h2.1, h.1, List.length_cons]; omega
    · rw [h2.2.1, h.2.1, List.map_cons, List.sum_cons]; omega
    · rw [h2.2.2, h.2.2.1, sumValues_mapIncr, List.length_cons]; omega

/-- C1: on every ingestion call the stored latest timestamp is replaced by
the incoming timestamp exactly when the incoming whole-second component is
strictly greater than the stored one AND the incoming sub-second component is
strictly greater than the stored one, and is left unchanged otherwise (so in
particular it does not update when seconds increase but sub-seconds do not). -/
theorem claim_C1_latest_update_conjunction (dec : decoders)
    (r : one_page_report) (pi : packet_info) :
    (r.ingest_packet dec pi).latest
      = (if r.latest.tv_sec < pi.ts.tv_sec ∧ r.latest.tv_usec < pi.ts.tv_usec
          then pi.ts else r.latest) :=
  (ingest_packet_fields dec r pi).2.2.2.1

/-- C2: starting from a freshly constructed aggregate, packet_count equals
the number of ingestion calls, byte_count equals the sum of the captured
lengths, the transport_counts values sum to packet_count, and each single
ingestion call raises exactly the one transport tag of the packet by one. -/
theorem claim_C2_counter_invariants :
    (∀ (dec : decoders) (pis : List packet_info),
      (ingest_list dec one_page_report.init pis).packet_count = pis.length ∧
      (ingest_list dec one_page_report.init pis).byte_count
        = (pis.map packet_info.caplen).sum ∧
      sumValues (ingest_list dec one_page_report.init pis).transport_counts
        = (ingest_list dec one_page_report.init pis).packet_count) ∧
    (∀ (dec : decoders) (r : one_page_report) (pi : packet_info) (k : Nat),
      countOf (r.ingest_packet dec pi).transport_counts k
        = countOf r.transport_counts k
          + (if k = pi.ether_type then 1 else 0)) := by
  constructor
  · intro dec pis
    obtain ⟨h1, h2, h3⟩ := ingest_list_counts dec pis one_page_report.init
    refine ⟨?_, ?_, ?_⟩
    · simpa [one_page_report.init] using h1
    · simpa [one_page_report.init] using h2
    · rw [h3, h1]
      simp [one_page_report.init, sumValues]
  · intro dec r pi k
    rw [(ingest_packet_fields dec r pi).2.2.1, countOf_mapIncr]

/-- C3: dispatch policy of one ingestion call. Address-tree routing follows
the decode flags (16-byte IPv6 addresses first, else 4-byte IPv4 addresses,
else nothing; the byte lengths are carried by the subtypes in ip6_dgram and
ip4_dgram); the bandwidth histogram and the packet waterfall receive the
packet unconditionally; the two port histograms receive the TCP segment
exactly when one was decoded (Option.toList is empty exactly on none). -/
theorem claim_C3_dispatch_policy (dec : decoders) (r : one_page_report)
    (pi : packet_info) :
    (r.ingest_packet dec pi).src_tree
      = r.src_tree
        ++ (match (classify dec pi.ip_data).ip6, (classify dec pi.ip_data).ip4 with
            | some d6, _ => [d6.ip6_src.val]
            | none, some d4 => [d4.ip_src.val]
            | none, none => []) ∧
    (r.ingest_packet dec pi).dst_tree
      = r.dst_tree
        ++ (match (classify dec pi.ip_data).ip6, (classify dec pi.ip_data).ip4 with
            | some d6, _ => [d6.ip6_dst.val]
            | none, some d4 => [d4.ip_dst.val]
            | none, none => []) ∧
    (r.ingest_packet dec pi).bandwidth_histogram
      = r.bandwidth_histogram ++ [(pi, (classify dec pi.ip_data).tcp)] ∧
    (r.ingest_packet dec pi).pfall = r.pfall ++ [pi] ∧
    (r.ingest_packet dec pi).src_port_histogram
      = r.src_port_histogram ++ (classify dec pi.ip_data).tcp.toList ∧
    (r.ingest_packet dec pi).dst_port_histogram
      = r.dst_port_histogram ++ (classify dec pi.ip_data).tcp.toList := by
  rcases hc : classify dec pi.ip_data with ⟨c4, c6, ct⟩
  simp only [one_page_report.ingest_packet, hc]
  rcases c6 with _ | d6 <;> rcases c4 with _ | d4 <;> rcases ct with _ | s <;>
    (repeat' split) <;> simp_all

/-- Helper: once the stored earliest timestamp has a nonzero whole-second
component, no ingestion call changes it. -/
theorem ingest_earliest_preserved (dec : decoders) (r : one_page_report)
    (pi : packet_info) (h : r.earliest.tv_sec ≠ 0) :
    (r.ingest_packet dec pi).earliest = r.earliest := by
  rw [(ingest_packet_fields dec r pi).2.2.2.2, if_neg h]

/-- Concrete packet whose timestamp has whole-second component 0. -/
def pktA : packet_info := ⟨⟨0, 1⟩, 10, 2048, []⟩

/-- Concrete packet with a nonzero whole-second timestamp component. -/
def pktB : packet_info := ⟨⟨5, 2⟩, 20, 2048, []⟩

/-- C4 counterexample: ingesting pktA (timestamp 0 s 1 us) and then pktB
(timestamp 5 s 2 us) leaves earliest equal to the SECOND packets timestamp:
the code tests earliest.tv_sec == 0 as the unset sentinel, so a first packet
whose whole-second component is 0 does not settle earliest and a later call
overwrites it, contradicting the claim that earliest always equals the first
ingested timestamp and is never mutated again. -/
theorem claim_C4_counterexample :
    (ingest_list noDecoders one_page_report.init [pktA, pktB]).earliest
      ≠ pktA.ts := by
  have h : (ingest_list noDecoders one_page_report.init [pktA, pktB]).earliest
      = ⟨5, 2⟩ := rfl
  rw [h]
  decide

/-- C4 amended: for every non-empty ingestion sequence whose FIRST packet has
a nonzero whole-second timestamp component, earliest equals the first packets
timestamp after the whole sequence, regardless of all later packets, and no
subsequent ingestion call mutates it. -/
theorem claim_C4_earliest_first_packet (dec : decoders) (pi : packet_info)
    (pis : List packet_info) (h : pi.ts.tv_sec ≠ 0) :
    (ingest_list dec one_page_report.init (pi :: pis)).earliest = pi.ts := by
  have h0 : (one_page_report.ingest_packet dec one_page_report.init pi).earliest
      = pi.ts := by
    rw [(ingest_packet_fields dec one_page_report.init pi).2.2.2.2]
    simp [one_page_report.init]
  suffices h2 : ∀ (rs : List packet_info) (r : one_page_report),
      r.earliest = pi.ts → (ingest_list dec r rs).earliest = pi.ts by
    simp only [ingest_list, List.foldl_cons]
    exact h2 pis _ h0
  intro rs
  induction rs with
  | nil => intro r hr; simpa [ingest_list] using hr
  | cons q rest ih =>
    intro r hr
    simp only [ingest_list, List.foldl_cons] at ih ⊢
    apply ih
    rw [ingest_earliest_preserved dec r q (by rw [hr]; exact h)]
    exact hr

/-- C4 witness: a concrete two-packet run (first whole-second component 5,
then a later packet) in which earliest stays at the first timestamp. -/
theorem claim_C4_witness :
    pktB.ts.tv_sec ≠ 0 ∧
    (ingest_list noDecoders one_page_report.init [pktB, pktA]).earliest
      = pktB.ts :=
  ⟨by decide,
    claim_C4_earliest_first_packet noDecoders pktB [pktA] (by decide)⟩

/-- Model of the percentage computed for one top-N entry (source lines 357 to
361 and 372 to 375): a uint8_t initialised to 0, overwritten when the side
total is positive by (double)count / (double)total * 100.0 converted to
uint8_t. The double arithmetic is modelled exactly over the rationals; the
conversion to the unsigned integer truncates toward zero (the value is
nonnegative, and within range whenever count is at most total). -/
def top_n_percentage (count total : Nat) : Nat :=
  if 0 < total then (Int.floor (((count : Rat) / (total : Rat)) * 100)).toNat
  else 0

/-- Helper: closed form of the percentage computation as a guarded truncated
Nat division. -/
theorem top_n_percentage_eq (count total : Nat) :
    top_n_percentage count total
      = if 0 < total then count * 100 / total else 0 := by
  unfold top_n_percentage
  by_cases h : 0 < total
  · simp only [if_pos h]
    have h1 : ((count : Rat) / (total : Rat)) * 100
        = ((count * 100 : Nat) : Rat) / ((total : Nat) : Rat) := by
      push_cast
      ring
    rw [h1, Rat.floor_natCast_div_natCast, ← Int.ofNat_ediv]
    rfl
  · simp [h]

/-- C7: the rendered percentage is 0 whenever the side total is 0 (no
division by zero), and otherwise is count times 100 over total, truncated
toward zero (Nat division truncates). -/
theorem claim_C7_percentage_guard (count total : Nat) :
    top_n_percentage count total
      = if 0 < total then count * 100 / total else 0 :=
  top_n_percentage_eq count total

/-- Model of the local variable of source line 199, size_log_1000 =
(uint64_t)(log(byte_count) / log(1000)). For byte_count at least 1 the real
number log(byte_count)/log(1000) is the base-1000 logarithm and the
conversion truncates toward zero, which is Nat.log 1000 (proved in
claim_C8_size_suffix_clamp, not assumed). For byte_count = 0 the C expression
takes log(0), minus infinity, whose conversion to uint64_t is out of range;
x86-64 hardware yields 2 ^ 63, and any value at least the 7-entry table
length produces the same clamped result on the next line. -/
def size_log_1000 (byte_count : Nat) : Nat :=
  if byte_count = 0 then 2 ^ 63 else Nat.log 1000 byte_count

/-- Model of source lines 200 to 202: the raw index is clamped to 0 once it
reaches the size of the suffix table. -/
def size_suffix_index (byte_count : Nat) : Nat :=
  if one_page_report.size_suffixes.length ≤ size_log_1000 byte_count then 0
  else size_log_1000 byte_count

/-- C8: the suffix index used by the header line is the floor of
log(byte_count)/log(1000) (for positive byte counts), is clamped to 0 for
byte count 0 and whenever the raw index reaches the table length, is the raw
logarithm value otherwise, and always stays strictly below the length of the
suffix table, so the lookup never indexes out of bounds. -/
theorem claim_C8_size_suffix_clamp (b : Nat) :
    size_suffix_index b < one_page_report.size_suffixes.length ∧
    size_suffix_index 0 = 0 ∧
    (one_page_report.size_suffixes.length ≤ size_log_1000 b
      → size_suffix_index b = 0) ∧
    (size_log_1000 b < one_page_report.size_suffixes.length
      → size_suffix_index b = size_log_1000 b) ∧
    (1 ≤ b → (size_log_1000 b : Int)
      = Int.floor (Real.log b / Real.log 1000)) := by
  have hlen : one_page_report.size_suffixes.length = 7 := rfl
  refine ⟨?_, ?_, ?_, ?_, ?_⟩
  · unfold size_suffix_index
    split
    · omega
    · omega
  · have h263 : size_log_1000 0 = 2 ^ 63 := by simp [size_log_1000]
    unfold size_suffix_index
    rw [h263, if_pos (by rw [hlen]; norm_num)]
  · intro h
    unfold size_suffix_index
    rw [if_pos h]
  · intro h
    unfold size_suffix_index
    rw [if_neg (by omega)]
  · intro hb
    have h0 : ¬b = 0 := by omega
    simp only [size_log_1000, if_neg h0]
    rw [Real.log_div_log,
      show ((1000 : Real)) = ((1000 : Nat) : Real) by norm_num,
      Real.floor_logb_natCast (by positivity), Int.log_natCast]

/-- C8 witness: at byte count 1500 the raw index evaluates to 1 (suffix KB),
it is below the table length so it is not clamped, and it equals the floor of
log(1500)/log(1000). -/
theorem claim_C8_witness :
    size_log_1000 1500 = 1 ∧
    size_suffix_index 1500 = 1 ∧
    (size_log_1000 1500 : Int)
      = Int.floor (Real.log ((1500 : Nat) : Real) / Real.log 1000) := by
  have h1 : size_log_1000 1500 = 1 := by
    unfold size_log_1000
    rw [if_neg (by norm_num)]
    exact Nat.log_eq_of_pow_le_of_lt_pow (by norm_num) (by norm_num)
  refine ⟨h1, ?_, (claim_C8_size_suffix_clamp 1500).2.2.2.2 (by norm_num)⟩
  have h2 := (claim_C8_size_suffix_clamp 1500).2.2.2.1 (by rw [h1]; decide)
  rw [h2, h1]

/-- Modelled from the spec: comma_number_string (declared in util.h, outside
src/) renders an integer with thousands separators. Digits are grouped in
threes from the least significant end. -/
def commaRev : List Char → List Char
  | [] => []
  | [a] => [a]
  | [a, b] => [a, b]
  | [a, b, c] => [a, b, c]
  | a :: b :: c :: d :: rest => a :: b :: c :: ',' :: commaRev (d :: rest)

/-- Modelled from the spec: grouped (thousands-separated) rendering of a
nonnegative integer, built on commaRev over the reversed decimal digits. -/
def comma_number_string (n : Nat) : String :=
  String.mk ((commaRev (toString n).data.reverse).reverse)

example : comma_number_string 1 = "1" := by rfl
example : comma_number_string 1234567 = "1,234,567" := by rfl

/-- Ethernet link-layer tag ETHERTYPE_IP from the system headers. -/
def ETHERTYPE_IP : Nat := 0x0800

/-- Ethernet link-layer tag ETHERTYPE_IPV6 from the system headers. -/
def ETHERTYPE_IPV6 : Nat := 0x86DD

/-- Ethernet link-layer tag ETHERTYPE_ARP from the system headers. -/
def ETHERTYPE_ARP : Nat := 0x0806

/-- Model of plot::bounds_t: origin, width and height of a drawing band. -/
structure bounds_t where
  x : Rat
  y : Rat
  width : Rat
  height : Rat
  deriving DecidableEq

/-- Model of count_histogram::count_pair: a label with its count. -/
structure count_pair where
  first : String
  second : Nat
  deriving DecidableEq

/-- External world of the render pass, bundled into one record: the cairo
text measurement (per font size and text), the indeterminate initial values
of the two uninitialised cairo_text_extents_t stack variables of each top-N
loop iteration, the wall-clock and printf formatting of header strings, and
the sub-statistic renderer results. The renderers for the address histograms
(render_iptree) and port histograms (render) are declared outside src/;
Modelled from the spec: each render call draws into the requested band and
leaves the actual measured rendered height queryable in the bounds height
(the requested height is advisory), and each histogram exposes its ranked
top list and total count sum, here as functions of the data it was fed (the
address trees and the ingested TCP segments respectively). -/
structure render_env where
  measure : Rat → String → Rat
  junk_left : Nat → Rat
  junk_right : Nat → Rat
  generated_str : String
  fmt_date_range : timeval → timeval → String
  fmt2 : Rat → String
  iptree_height : List (List Nat) → Rat
  iptree_top_list : List (List Nat) → List count_pair
  iptree_count_sum : List (List Nat) → Nat
  port_height : List tcp_seg → Rat
  port_top_list : List tcp_seg → List count_pair
  port_count_sum : List tcp_seg → Nat

/-- Model of the render_pass object: the aggregate it reads (held by
reference, hence mutable through it), the padded surface bounds, and the
running vertical cursor end_of_content, starting at 0. -/
structure render_pass where
  report : one_page_report
  surface_bounds : bounds_t
  end_of_content : Rat
  deriving DecidableEq

/-- Model of render_pass::render_text_line (source lines 245 to 253): the
text is drawn at the cursor and the cursor advances by the measured text
height plus the given line space. -/
def render_text_line (env : render_env) (text : String) (font_size : Rat)
    (line_space : Rat) (p : render_pass) : render_pass :=
  { p with end_of_content :=
      p.end_of_content + env.measure font_size text + line_space }

/-- Row text of the top-N renderer, ssprintf("%d. %s - %s (%d%%)") with the
1-based rank, the label, the grouped count and the integer percentage. -/
def top_n_row_string (ii : Nat) (pair : count_pair) (total : Nat) : String :=
  toString (ii + 1) ++ ". " ++ pair.first ++ " - "
    ++ comma_number_string pair.second ++ " ("
    ++ toString (top_n_percentage pair.second total) ++ "%)"

/-- Cursor advance of one iteration of the top-N loop (source lines 352 to
386). Both cairo_text_extents_t variables are declared without an
initialiser, so each starts at an indeterminate value. When the left list
has a row, render_text writes the measured left extents into left_extents;
when the right list has a row, the render_text call of source line 382
passes left_extents AGAIN (not right_extents), so the right measurement
overwrites the left one and right_extents is never written at all. The
advance is max of left_extents and the indeterminate right_extents, times
1.5. -/
def top_n_row_advance (env : render_env)
    (left_list right_list : List count_pair) (left_sum right_sum : Nat)
    (font_size : Rat) (ii : Nat) : Rat :=
  let left_extents := env.junk_left ii
  let right_extents := env.junk_right ii
  let left_extents := if ii < left_list.length
    then env.measure font_size
      (top_n_row_string ii (left_list.getD ii ⟨"", 0⟩) left_sum)
    else left_extents
  let left_extents := if ii < right_list.length
    then env.measure font_size
      (top_n_row_string ii (right_list.getD ii ⟨"", 0⟩) right_sum)
    else left_extents
  max left_extents right_extents * (3 / 2)

/-- Model of render_pass::render_dual_histograms_top_n (source lines 344 to
391): the loop runs histogram_show_top_n_text times, adding each row term to
the cursor, then the cursor advances once more by the larger histogram
height times (histogram_pad_factor_y - 1.0). -/
def render_dual_histograms_top_n (env : render_env)
    (left_list right_list : List count_pair) (left_sum right_sum : Nat)
    (left_hist_bounds right_hist_bounds : bounds_t) (p : render_pass) :
    render_pass :=
  let eoc := (List.range p.report.histogram_show_top_n_text).foldl
    (fun e ii => e + top_n_row_advance env left_list right_list left_sum
      right_sum p.report.top_list_font_size ii)
    p.end_of_content
  { p with end_of_content := eoc
      + max left_hist_bounds.height right_hist_bounds.height
        * (one_page_report.histogram_pad_factor_y - 1) }

/-- Keys probed by the transport percentage line of render_header: the six
std::map operator[] argument evaluations hit ETHERTYPE_IP, ETHERTYPE_IPV6 and
ETHERTYPE_ARP twice each (C++ leaves the order of argument evaluation open;
the final map content is the same for every order, since each probe only
inserts a missing key with value 0). -/
def header_transport_probes (m : List (Nat × Nat)) : List (Nat × Nat) :=
  mapProbe (mapProbe (mapProbe (mapProbe (mapProbe (mapProbe
    m ETHERTYPE_IP) ETHERTYPE_IPV6) ETHERTYPE_ARP)
    ETHERTYPE_IP) ETHERTYPE_IPV6) ETHERTYPE_ARP

/-- Model of render_pass::render_header (source lines 164 to 230): six text
lines each advancing the cursor by measured height plus line space, two
trailing pads of four line spaces, and the transport percentage line whose
six std::map operator[] argument evaluations insert the IPv4, IPv6 and ARP
keys into transport_counts when absent (transport_total is summed over the
map before those insertions). -/
def render_header (env : render_env) (p : render_pass) : render_pass :=
  let r := p.report
  let title_line_space := r.header_font_size * one_page_report.line_space_factor
  let p1 := render_text_line env one_page_report.title_version
    r.header_font_size title_line_space p
  let p2 := render_text_line env ("Input: " ++ r.source_identifier)
    r.header_font_size title_line_space p1
  let p3 := render_text_line env ("Generated: " ++ env.generated_str)
    r.header_font_size title_line_space p2
  let p4 := { p3 with end_of_content := p3.end_of_content + title_line_space * 4 }
  let p5 := render_text_line env
    ("Date range: " ++ env.fmt_date_range r.earliest r.latest)
    r.header_font_size title_line_space p4
  let idx := size_suffix_index r.byte_count
  let p6 := render_text_line env
    ("Packets analyzed: " ++ comma_number_string r.packet_count
      ++ " (" ++ env.fmt2 ((r.byte_count : Rat) / 1000 ^ idx) ++ " "
      ++ one_page_report.size_suffixes.getD idx "" ++ ")")
    r.header_font_size title_line_space p5
  let transport_total := sumValues r.transport_counts
  let m := header_transport_probes r.transport_counts
  let line := "Transports: IPv4 "
    ++ env.fmt2 ((countOf m ETHERTYPE_IP : Rat) / (transport_total : Rat) * 100)
    ++ "% IPv6 "
    ++ env.fmt2 ((countOf m ETHERTYPE_IPV6 : Rat) / (transport_total : Rat) * 100)
    ++ "% ARP "
    ++ env.fmt2 ((countOf m ETHERTYPE_ARP : Rat) / (transport_total : Rat) * 100)
    ++ "% Other "
    ++ env.fmt2 ((1 - ((countOf m ETHERTYPE_IP + countOf m ETHERTYPE_IPV6
        + countOf m ETHERTYPE_ARP : Nat) : Rat) / (transport_total : Rat)) * 100)
    ++ "%"
  let p7 := { p6 with report := { r with transport_counts := m } }
  let p8 := render_text_line env line r.header_font_size title_line_space p7
  { p8 with end_of_content := p8.end_of_content + title_line_space * 4 }

/-- Model of render_pass::render_bandwidth_histogram (source lines 255 to
265): the collaborator draws inside the fixed-height band (the spec describes
this band as fixed-height) and the cursor advances by the band height times
the histogram pad factor. -/
def render_bandwidth_histogram (p : render_pass) : render_pass :=
  { p with end_of_content := p.end_of_content
      + one_page_report.bandwidth_histogram_height
        * one_page_report.histogram_pad_factor_y }

/-- Model of render_pass::render_packetfall (source lines 267 to 277): same
fixed-height band advance as the bandwidth histogram. -/
def render_packetfall (p : render_pass) : render_pass :=
  { p with end_of_content := p.end_of_content
      + one_page_report.bandwidth_histogram_height
        * one_page_report.histogram_pad_factor_y }

/-- Model of render_pass::render_map (source lines 279 to 283): an empty
body, a reserved extension point that draws nothing and advances nothing. -/
def render_map (p : render_pass) : render_pass := p

/-- Model of render_pass::render_address_histograms (source lines 285 to
312): two bands of width surface width / divisor at the same cursor offset,
rendered from the two address trees (the render leaves the measured height
in the bounds, per the spec contract recorded in render_env), then the
cursor advances by the larger of the two measured heights, then the top-N
stage runs on the two ranked lists and sums. -/
def render_address_histograms (env : render_env) (p : render_pass) :
    render_pass :=
  let width := p.surface_bounds.width
    / one_page_report.address_histogram_width_divisor
  let left_bounds0 : bounds_t :=
    ⟨0, p.end_of_content, width, one_page_report.address_histogram_height⟩
  let left_bounds := { left_bounds0 with
    height := env.iptree_height p.report.src_tree }
  let left_sum := env.iptree_count_sum p.report.src_tree
  let right_bounds0 : bounds_t := ⟨p.surface_bounds.width - width,
    p.end_of_content, width, one_page_report.address_histogram_height⟩
  let right_bounds := { right_bounds0 with
    height := env.iptree_height p.report.dst_tree }
  let right_sum := env.iptree_count_sum p.report.dst_tree
  let p1 := { p with end_of_content := p.end_of_content + max left_bounds.height right_bounds.height }
  render_dual_histograms_top_n env
    (env.iptree_top_list p.report.src_tree)
    (env.iptree_top_list p.report.dst_tree)
    left_sum right_sum left_bounds right_bounds p1

/-- Model of render_pass::render_port_histograms (source lines 314 to 340):
identical structure to the address variant, fed from the two port
histograms. -/
def render_port_histograms (env : render_env) (p : render_pass) :
    render_pass :=
  let width := p.surface_bounds.width
    / one_page_report.address_histogram_width_divisor
  let left_bounds0 : bounds_t :=
    ⟨0, p.end_of_content, width, one_page_report.address_histogram_height⟩
  let left_bounds := { left_bounds0 with
    height := env.port_height p.report.src_port_histogram }
  let left_sum := env.port_count_sum p.report.src_port_histogram
  let right_bounds0 : bounds_t := ⟨p.surface_bounds.width - width,
    p.end_of_content, width, one_page_report.address_histogram_height⟩
  let right_bounds := { right_bounds0 with
    height := env.port_height p.report.dst_port_histogram }
  let right_sum := env.port_count_sum p.report.dst_port_histogram
  let p1 := { p with end_of_content := p.end_of_content + max left_bounds.height right_bounds.height }
  render_dual_histograms_top_n env
    (env.port_top_list p.report.src_port_histogram)
    (env.port_top_list p.report.dst_port_histogram)
    left_sum right_sum left_bounds right_bounds p1

/-- Fixed sequence of render steps driven by one_page_report::render (source
lines 151 to 156): header, bandwidth histogram, map placeholder, packet
waterfall, address histograms, port histograms. -/
def full_render_pass (env : render_env) (p : render_pass) : render_pass :=
  render_port_histograms env (render_address_histograms env
    (render_packetfall (render_map (render_bandwidth_histogram
      (render_header env p)))))

/-- Model of one_page_report::render (source lines 131 to 162): the page is
padded by the margin factor once, the pass starts with cursor 0 and runs the
fixed step sequence. -/
def one_page_report.render (env : render_env) (r : one_page_report) :
    render_pass :=
  let pad_size := r.bounds_width * one_page_report.page_margin_factor
  let pad_bounds : bounds_t := ⟨r.bounds_x + pad_size, r.bounds_y + pad_size,
    r.bounds_width - pad_size * 2, r.bounds_height - pad_size * 2⟩
  full_render_pass env
    { report := r, surface_bounds := pad_bounds, end_of_content := 0 }

/-- Helper: a left fold that only adds one term per element is the sum of
those terms. -/
theorem foldl_add_eq_sum (f : Nat → Rat) (l : List Nat) (a : Rat) :
    l.foldl (fun e ii => e + f ii) a = a + (l.map f).sum := by
  induction l generalizing a with
  | nil => simp
  | cons x xs ih => simp [List.foldl_cons, ih, add_assoc]

/-- Helper: probing a key does not change any stored value. -/
theorem countOf_mapProbe (m : List (Nat × Nat)) (k j : Nat) :
    countOf (mapProbe m k) j = countOf m j := by
  induction m with
  | nil =>
    simp only [mapProbe, countOf]
    split <;> rfl
  | cons p rest ih =>
    obtain ⟨a, v⟩ := p
    by_cases hak : a = k <;> simp [mapProbe, countOf, hak, ih]

/-- Helper: probing a key does not change the value sum of the map. -/
theorem sumValues_mapProbe (m : List (Nat × Nat)) (k : Nat) :
    sumValues (mapProbe m k) = sumValues m := by
  induction m with
  | nil => simp [mapProbe, sumValues]
  | cons p rest ih =>
    obtain ⟨a, v⟩ := p
    by_cases hak : a = k <;> simp [mapProbe, sumValues, hak] <;>
      simp [sumValues] at ih <;> omega

/-- C10: the top-N loop runs exactly histogram_show_top_n_text iterations
(the range does not depend on either list length), the cursor gains one
row-advance term for every iteration including those where a side or both
sides have no entry, plus the single final histogram-pad adjustment; and the
configured row count of a freshly constructed report is 3. -/
theorem claim_C10_top_n_fixed_row_count (env : render_env)
    (left_list right_list : List count_pair) (left_sum right_sum : Nat)
    (lb rb : bounds_t) (p : render_pass) :
    (render_dual_histograms_top_n env left_list right_list left_sum right_sum
        lb rb p).end_of_content
      = p.end_of_content
        + ((List.range p.report.histogram_show_top_n_text).map
            (top_n_row_advance env left_list right_list left_sum right_sum
              p.report.top_list_font_size)).sum
        + max lb.height rb.height
          * (one_page_report.histogram_pad_factor_y - 1) ∧
    (List.range p.report.histogram_show_top_n_text).length
      = p.report.histogram_show_top_n_text ∧
    one_page_report.init.histogram_show_top_n_text = 3 := by
  refine ⟨?_, by simp, rfl⟩
  show (List.range p.report.histogram_show_top_n_text).foldl
      (fun e ii => e + top_n_row_advance env left_list right_list left_sum
        right_sum p.report.top_list_font_size ii) p.end_of_content
      + max lb.height rb.height * (one_page_report.histogram_pad_factor_y - 1)
    = _
  rw [foldl_add_eq_sum]

/-- C5: in both the address and the port steps the block before the top-N
stage advances the cursor by exactly the larger of the two measured rendered
heights (the bounds carry the measured heights after the render calls): each
step factors into a cursor advance of max of the two measured heights
followed by the top-N renderer on those bounds. With measured heights 80 and
65 the advance is max 80 65 = 80, not the sum 145, the average 72.5, or the
fixed requested height 100. -/
theorem claim_C5_side_by_side_cursor (env : render_env) (p : render_pass) :
    (render_address_histograms env p
      = render_dual_histograms_top_n env
          (env.iptree_top_list p.report.src_tree)
          (env.iptree_top_list p.report.dst_tree)
          (env.iptree_count_sum p.report.src_tree)
          (env.iptree_count_sum p.report.dst_tree)
          ⟨0, p.end_of_content,
            p.surface_bounds.width
              / one_page_report.address_histogram_width_divisor,
            env.iptree_height p.report.src_tree⟩
          ⟨p.surface_bounds.width
              - p.surface_bounds.width
                / one_page_report.address_histogram_width_divisor,
            p.end_of_content,
            p.surface_bounds.width
              / one_page_report.address_histogram_width_divisor,
            env.iptree_height p.report.dst_tree⟩
          { p with end_of_content := p.end_of_content + max (env.iptree_height p.report.src_tree) (env.iptree_height p.report.dst_tree) }) ∧
    (render_port_histograms env p
      = render_dual_histograms_top_n env
          (env.port_top_list p.report.src_port_histogram)
          (env.port_top_list p.report.dst_port_histogram)
          (env.port_count_sum p.report.src_port_histogram)
          (env.port_count_sum p.report.dst_port_histogram)
          ⟨0, p.end_of_content,
            p.surface_bounds.width
              / one_page_report.address_histogram_width_divisor,
            env.port_height p.report.src_port_histogram⟩
          ⟨p.surface_bounds.width
              - p.surface_bounds.width
                / one_page_report.address_histogram_width_divisor,
            p.end_of_content,
            p.surface_bounds.width
              / one_page_report.address_histogram_width_divisor,
            env.port_height p.report.dst_port_histogram⟩
          { p with end_of_content := p.end_of_content + max (env.port_height p.report.src_port_histogram) (env.port_height p.report.dst_port_histogram) }) :=
  ⟨rfl, rfl⟩

/-- Render environment in which every external measurement and formatter
yields a constant; used for concrete runs of the render pass. -/
def trivial_env : render_env :=
  { measure := fun _ _ => 0
    junk_left := fun _ => 0
    junk_right := fun _ => 0
    generated_str := ""
    fmt_date_range := fun _ _ => ""
    fmt2 := fun _ => ""
    iptree_height := fun _ => 0
    iptree_top_list := fun _ => []
    iptree_count_sum := fun _ => 0
    port_height := fun _ => 0
    port_top_list := fun _ => []
    port_count_sum := fun _ => 0 }

/-- Aggregate after ingesting one IPv4-tagged packet (pktB has ether_type
0x0800): its transport map holds exactly the IPv4 key. -/
def report1 : one_page_report :=
  ingest_list noDecoders one_page_report.init [pktB]

/-- C6 counterexample: a full render pass over the aggregate that saw one
IPv4 packet does NOT leave the aggregate unchanged: the transport percentage
line of render_header looks the IPv6 and ARP tags up with std::map
operator[], which inserts both missing keys (with value 0), growing
transport_counts from one entry to three. -/
theorem claim_C6_counterexample :
    (full_render_pass trivial_env ⟨report1, ⟨0, 0, 100, 100⟩, 0⟩).report
      ≠ report1 := by
  intro h
  have h2 : (3 : Nat) = 1 := by
    calc (3 : Nat)
        = (full_render_pass trivial_env
            ⟨report1, ⟨0, 0, 100, 100⟩, 0⟩).report.transport_counts.length := by
          rfl
      _ = report1.transport_counts.length := by rw [h]
      _ = 1 := by rfl
  exact absurd h2 (by norm_num)

/-- C6 amended: the render pass leaves every counter, both time bounds, both
trees, all sub-statistic feeds and the source label of the aggregate exactly
as they were, preserves the value stored under every transport tag and the
sum of all transport counts; its only mutation is that the header step may
insert absent ethertype keys with value 0 into transport_counts. -/
theorem claim_C6_render_reads_aggregate (env : render_env) (p : render_pass) :
    (full_render_pass env p).report.source_identifier
      = p.report.source_identifier ∧
    (full_render_pass env p).report.packet_count = p.report.packet_count ∧
    (full_render_pass env p).report.byte_count = p.report.byte_count ∧
    (full_render_pass env p).report.earliest = p.report.earliest ∧
    (full_render_pass env p).report.latest = p.report.latest ∧
    (full_render_pass env p).report.src_tree = p.report.src_tree ∧
    (full_render_pass env p).report.dst_tree = p.report.dst_tree ∧
    (full_render_pass env p).report.bandwidth_histogram
      = p.report.bandwidth_histogram ∧
    (full_render_pass env p).report.src_port_histogram
      = p.report.src_port_histogram ∧
    (full_render_pass env p).report.dst_port_histogram
      = p.report.dst_port_histogram ∧
    (full_render_pass env p).report.pfall = p.report.pfall ∧
    (∀ k, countOf (full_render_pass env p).report.transport_counts k
      = countOf p.report.transport_counts k) ∧
    sumValues (full_render_pass env p).report.transport_counts
      = sumValues p.report.transport_counts := by
  have hrep : (full_render_pass env p).report
      = { p.report with transport_counts := header_transport_probes p.report.transport_counts } :=
    rfl
  rw [hrep]
  refine ⟨rfl, rfl, rfl, rfl, rfl, rfl, rfl, rfl, rfl, rfl, rfl, ?_, ?_⟩
  · intro k
    unfold header_transport_probes
    simp [countOf_mapProbe]
  · unfold header_transport_probes
    simp [sumValues_mapProbe]

/-- Render environment for the C9 run: the row text of the left entry
measures 20 units high, every other text measures 10, and both uninitialised
extents variables happen to hold 0. -/
def c9_env : render_env :=
  { trivial_env with
    measure := fun _ s => if s = "1. a - 1 (100%)" then 20 else 10 }

/-- C9: concrete evaluation showing the row-height slip. With one left entry
whose row text measures 20 and one right entry whose row text measures 10,
the loop advances the cursor by 15 = max 10 0 * 1.5, because the right-hand
render_text call of source line 382 stores its extents into left_extents
(overwriting the left measurement) and right_extents stays uninitialised
(here 0); the row height claimed by the spec, the larger of the two sides
measured text heights times 1.5, would be 30. -/
theorem claim_C9_row_uses_wrong_extents :
    (render_dual_histograms_top_n c9_env [⟨"a", 1⟩] [⟨"b", 1⟩] 1 1
        ⟨0, 0, 10, 100⟩ ⟨50, 0, 10, 100⟩
        ⟨one_page_report.init, ⟨0, 0, 100, 100⟩, 0⟩).end_of_content = 15 ∧
    max (c9_env.measure 8 (top_n_row_string 0 ⟨"a", 1⟩ 1))
        (c9_env.measure 8 (top_n_row_string 0 ⟨"b", 1⟩ 1)) * (3 / 2) = 30 := by
  have hp : top_n_percentage 1 1 = 100 := by
    rw [top_n_percentage_eq]
    decide
  have hsa : top_n_row_string 0 ⟨"a", 1⟩ 1 = "1. a - 1 (100%)" := by
    unfold top_n_row_string
    dsimp only
    rw [hp]
    rfl
  have hsb : top_n_row_string 0 ⟨"b", 1⟩ 1 = "1. b - 1 (100%)" := by
    unfold top_n_row_string
    dsimp only
    rw [hp]
    rfl
  have hma : c9_env.measure 8 (top_n_row_string 0 ⟨"a", 1⟩ 1) = 20 := by
    rw [hsa]
    dsimp only [c9_env, trivial_env]
    rw [if_pos rfl]
  have hmb : c9_env.measure 8 (top_n_row_string 0 ⟨"b", 1⟩ 1) = 10 := by
    rw [hsb]
    dsimp only [c9_env, trivial_env]
    rw [if_neg (by decide)]
  have h0 : top_n_row_advance c9_env [⟨"a", 1⟩] [⟨"b", 1⟩] 1 1 8 0 = 15 := by
    unfold top_n_row_advance
    simp only [List.length_cons, List.length_nil, List.getD_cons_zero, hmb]
    dsimp only [c9_env, trivial_env]
    rw [if_pos (by norm_num : (0 : Nat) < 0 + 1),
      max_eq_left (by norm_num : (0 : Rat) ≤ 10)]
    norm_num
  have h12 : ∀ ii : Nat, top_n_row_advance c9_env [⟨"a", 1⟩] [⟨"b", 1⟩] 1 1 8
      (ii + 1) = 0 := by
    intro ii
    unfold top_n_row_advance
    simp only [List.length_cons, List.length_nil]
    rw [if_neg (by omega), if_neg (by omega)]
    dsimp only [c9_env, trivial_env]
    rw [max_self]
    norm_num
  constructor
  · unfold render_dual_histograms_top_n
    dsimp only [one_page_report.init]
    rw [show List.range 3 = [0, 1, 2] from rfl]
    simp only [List.foldl_cons, List.foldl_nil]
    rw [h0, h12 0, h12 1, max_self]
    norm_num [one_page_report.histogram_pad_factor_y]
  · rw [hsa, hsb]
    dsimp only [c9_env, trivial_env]
    rw [if_pos rfl, if_neg (by decide),
      max_eq_left (by norm_num : (10 : Rat) ≤ 20)]
    norm_num
